import Mathlib

/-!
Verification of the cni-ng bridge plugin core.

This file gives a shallow embedding, in Lean, of the network-provisioning
core of the cni-ng repository (a CNI "bridge" plugin written in Rust), and
proves properties of its algorithms.

Embedded components and their sources:
  * `nextIp`            — src/ip/src/lib.rs, `next_ip`
  * `sha512` and `formatChainName` — src/utils/src/iptables.rs, `format_chain_name`
    (the SHA-512 digest itself is provided by the external `sha2` crate and is
    modelled here by a direct implementation of the standard algorithm)
  * `calcGateway`       — src/bridge/src/main.rs, `calc_gateway`
  * `ensureBridge`      — src/bridge/src/main.rs, `ensure_bridge`
  * `ensureAddr`        — src/bridge/src/main.rs, `ensure_addr`
  * `makeVeth`          — src/ip/src/link.rs, `make_veth`
  * `cmdAdd`            — src/bridge/src/main.rs, `cmd_add` (as an event trace)

Kernel state (links, addresses, sysctls) manipulated through the netlink
library is modelled explicitly as a `KernelState` value threaded through the
operations; external effects of `cmd_add` are modelled as an event trace.
Rust panics (`todo!`, `Option::unwrap` on `None`) are modelled by a dedicated
`Outcome.panic` constructor, distinct from recoverable `CniResult` errors.
-/

namespace CniNg

/-- An IP address: IPv4 as a 32-bit numeric value, IPv6 as a 128-bit numeric
value (both big-endian integer interpretations of the address bytes). -/
inductive IpAddr where
  | v4 (val : Nat)
  | v6 (val : Nat)
deriving DecidableEq, Repr

def IpAddr.isV4 : IpAddr → Bool
  | .v4 _ => true
  | .v6 _ => false

def IpAddr.isV6 : IpAddr → Bool
  | .v4 _ => false
  | .v6 _ => true

/-- `std::net::IpAddr::is_unspecified`: the all-zero address of either family. -/
def IpAddr.isUnspecified : IpAddr → Bool
  | .v4 a => a == 0
  | .v6 a => a == 0

/-- Address-family constants of the netlink layer (`AF_INET`, `AF_INET6`). -/
def FAMILY_V4 : Nat := 2

def FAMILY_V6 : Nat := 10

/-- An IP network as in the `ipnetwork` crate: an address together with a
prefix length (`plen`).  `Ipv4Network` carries `plen ≤ 32`, `Ipv6Network`
`plen ≤ 128`; the claims below only ever use valid prefixes. -/
structure IpNetwork where
  addr : IpAddr
  plen : Nat
deriving DecidableEq, Repr

/-- `IpNetwork::ip()`: the address part. -/
def IpNetwork.ip (n : IpNetwork) : IpAddr := n.addr

def IpNetwork.isIpv4 (n : IpNetwork) : Bool := n.addr.isV4

def IpNetwork.isIpv6 (n : IpNetwork) : Bool := n.addr.isV6

/-- The numeric netmask with the high `plen` of `bits` bits set. -/
def maskVal (bits plen : Nat) : Nat := 2 ^ bits - 2 ^ (bits - plen)

/-- `IpNetwork::mask()`: the netmask, as an address of the same family. -/
def IpNetwork.mask (n : IpNetwork) : IpAddr :=
  match n.addr with
  | .v4 _ => .v4 (maskVal 32 n.plen)
  | .v6 _ => .v6 (maskVal 128 n.plen)

/-- `IpNetwork::contains(ip)`: masked-equality check; addresses of the wrong
family are never contained. -/
def IpNetwork.contains (n : IpNetwork) (x : IpAddr) : Bool :=
  match n.addr, x with
  | .v4 a, .v4 b => a.land (maskVal 32 n.plen) == b.land (maskVal 32 n.plen)
  | .v6 a, .v6 b => a.land (maskVal 128 n.plen) == b.land (maskVal 128 n.plen)
  | _, _ => false

/-- Recover a prefix length from a numeric netmask (`None` when the value is
not of the form "high `p` bits set"). -/
def maskToPlen (bits m : Nat) : Option Nat :=
  (List.range (bits + 1)).find? (fun p => maskVal bits p == m)

/-- `IpNetwork::with_netmask(ip, netmask)` of the `ipnetwork` crate: build a
network from an address and a netmask address; fails on a family mismatch or
an invalid netmask. -/
def withNetmask (ip mask : IpAddr) : Except String IpNetwork :=
  match ip, mask with
  | .v4 a, .v4 m =>
    match maskToPlen 32 m with
    | some p => .ok ⟨.v4 a, p⟩
    | none => .error "invalid netmask"
  | .v6 a, .v6 m =>
    match maskToPlen 128 m with
    | some p => .ok ⟨.v6 a, p⟩
    | none => .error "invalid netmask"
  | _, _ => .error "autonomous address and netmask families differ"

/-- Result of running a piece of Rust code: a value, a recoverable
`CniResult`/`anyhow` error (`err`), or a process abort (`panic`, produced by
`todo!()` or by `Option::unwrap()` on `None`). -/
inductive Outcome (α : Type) where
  | ok (val : α)
  | err (msg : String)
  | panic (msg : String)
deriving Repr, DecidableEq

def Outcome.bind {α β : Type} : Outcome α → (α → Outcome β) → Outcome β
  | .ok a, f => f a
  | .err m, _ => .err m
  | .panic m, _ => .panic m

instance : Monad Outcome where
  pure := .ok
  bind := Outcome.bind

/-- `next_ip` from src/ip/src/lib.rs: numeric increment of an IPv4 address,
`None` on `u32` overflow.  The IPv6 arm of the source is `todo!()`, i.e. a
panic. -/
def nextIp : IpAddr → Outcome (Option IpAddr)
  | .v4 a => .ok (if a + 1 < 2 ^ 32 then some (.v4 (a + 1)) else none)
  | .v6 _ => .panic "not yet implemented"

/-! ### SHA-512 and chain-name derivation (src/utils/src/iptables.rs)

`format_chain_name` hashes `name ++ id` with the `sha2` crate's SHA-512.
The crate is an external dependency of the repository, so the digest is
modelled here directly from the standard SHA-512 algorithm (FIPS 180-4):
64-bit words are represented as `Nat` with explicit reduction mod `2 ^ 64`.
-/

/-- 64-bit rotate right. -/
def rotr64 (n x : Nat) : Nat := (x >>> n ||| x <<< (64 - n)) % 2 ^ 64

def ch64 (x y z : Nat) : Nat := x.land y ^^^ (x ^^^ (2 ^ 64 - 1)).land z

def maj64 (x y z : Nat) : Nat := x.land y ^^^ x.land z ^^^ y.land z

def bigSigma0 (x : Nat) : Nat := rotr64 28 x ^^^ rotr64 34 x ^^^ rotr64 39 x

def bigSigma1 (x : Nat) : Nat := rotr64 14 x ^^^ rotr64 18 x ^^^ rotr64 41 x

def smallSigma0 (x : Nat) : Nat := rotr64 1 x ^^^ rotr64 8 x ^^^ (x >>> 7)

def smallSigma1 (x : Nat) : Nat := rotr64 19 x ^^^ rotr64 61 x ^^^ (x >>> 6)

/-- The 80 SHA-512 round constants. -/
def K512 : List Nat := [
  4794697086780616226, 8158064640168781261, 13096744586834688815, 16840607885511220156,
  4131703408338449720, 6480981068601479193, 10538285296894168987, 12329834152419229976,
  15566598209576043074, 1334009975649890238, 2608012711638119052, 6128411473006802146,
  8268148722764581231, 9286055187155687089, 11230858885718282805, 13951009754708518548,
  16472876342353939154, 17275323862435702243, 1135362057144423861, 2597628984639134821,
  3308224258029322869, 5365058923640841347, 6679025012923562964, 8573033837759648693,
  10970295158949994411, 12119686244451234320, 12683024718118986047, 13788192230050041572,
  14330467153632333762, 15395433587784984357, 489312712824947311, 1452737877330783856,
  2861767655752347644, 3322285676063803686, 5560940570517711597, 5996557281743188959,
  7280758554555802590, 8532644243296465576, 9350256976987008742, 10552545826968843579,
  11727347734174303076, 12113106623233404929, 14000437183269869457, 14369950271660146224,
  15101387698204529176, 15463397548674623760, 17586052441742319658, 1182934255886127544,
  1847814050463011016, 2177327727835720531, 2830643537854262169, 3796741975233480872,
  4115178125766777443, 5681478168544905931, 6601373596472566643, 7507060721942968483,
  8399075790359081724, 8693463985226723168, 9568029438360202098, 10144078919501101548,
  10430055236837252648, 11840083180663258601, 13761210420658862357, 14299343276471374635,
  14566680578165727644, 15097957966210449927, 16922976911328602910, 17689382322260857208,
  500013540394364858, 748580250866718886, 1242879168328830382, 1977374033974150939,
  2944078676154940804, 3659926193048069267, 4368137639120453308, 4836135668995329356,
  5532061633213252278, 6448918945643986474, 6902733635092675308, 7801388544844847127]

/-- The SHA-512 state: eight 64-bit working variables. -/
structure Sha512State where
  a : Nat
  b : Nat
  c : Nat
  d : Nat
  e : Nat
  f : Nat
  g : Nat
  h : Nat
deriving DecidableEq, Repr

/-- The SHA-512 initial hash value. -/
def sha512Init : Sha512State :=
  ⟨7640891576956012808, 13503953896175478587, 4354685564936845355, 11912009170470909681,
   5840696475078001361, 11170449401992604703, 2270897969802886507, 6620516959819538809⟩

/-- `v` as `n` big-endian bytes. -/
def toBytesBE (n v : Nat) : List Nat :=
  (List.range n).map (fun i => v >>> (8 * (n - 1 - i)) % 256)

/-- SHA-512 padding: append `0x80`, zeros up to 112 mod 128, then the bit
length as a 16-byte big-endian integer. -/
def sha512Pad (msg : List Nat) : List Nat :=
  let len := msg.length
  let zeros := (128 + 112 - (len + 1) % 128) % 128
  msg ++ [128] ++ List.replicate zeros 0 ++ toBytesBE 16 (len * 8)

/-- Group a byte list into 64-bit big-endian words (full groups of 8 only). -/
def bytesToWords : List Nat → List Nat
  | b0 :: b1 :: b2 :: b3 :: b4 :: b5 :: b6 :: b7 :: rest =>
    (((((((b0 * 256 + b1) * 256 + b2) * 256 + b3) * 256 + b4) * 256 + b5) * 256 + b6) * 256 + b7)
      :: bytesToWords rest
  | _ => []

/-- Group a word list into 16-word blocks (full blocks only). -/
def wordsToBlocks : List Nat → List (List Nat)
  | w0 :: w1 :: w2 :: w3 :: w4 :: w5 :: w6 :: w7 :: w8 :: w9 :: w10 :: w11 :: w12 :: w13
      :: w14 :: w15 :: rest =>
    [w0, w1, w2, w3, w4, w5, w6, w7, w8, w9, w10, w11, w12, w13, w14, w15]
      :: wordsToBlocks rest
  | _ => []

/-- Extend the 16 block words to the 80-entry message schedule. -/
def extendSchedule (block : List Nat) : List Nat :=
  (List.range 64).foldl
    (fun w _ =>
      let t := w.length
      w ++ [(smallSigma1 (w.getD (t - 2) 0) + w.getD (t - 7) 0 +
             smallSigma0 (w.getD (t - 15) 0) + w.getD (t - 16) 0) % 2 ^ 64])
    block

/-- One SHA-512 compression round. -/
def sha512Round (w : List Nat) (s : Sha512State) (t : Nat) : Sha512State :=
  let t1 := (s.h + bigSigma1 s.e + ch64 s.e s.f s.g + K512.getD t 0 + w.getD t 0) % 2 ^ 64
  let t2 := (bigSigma0 s.a + maj64 s.a s.b s.c) % 2 ^ 64
  ⟨(t1 + t2) % 2 ^ 64, s.a, s.b, s.c, (s.d + t1) % 2 ^ 64, s.e, s.f, s.g⟩

/-- Compress one 16-word block into the running state. -/
def compressBlock (s : Sha512State) (block : List Nat) : Sha512State :=
  let w := extendSchedule block
  let t := (List.range 80).foldl (sha512Round w) s
  ⟨(s.a + t.a) % 2 ^ 64, (s.b + t.b) % 2 ^ 64, (s.c + t.c) % 2 ^ 64, (s.d + t.d) % 2 ^ 64,
   (s.e + t.e) % 2 ^ 64, (s.f + t.f) % 2 ^ 64, (s.g + t.g) % 2 ^ 64, (s.h + t.h) % 2 ^ 64⟩

/-- SHA-512 of a byte list, as the 64-byte digest. -/
def sha512 (msg : List Nat) : List Nat :=
  let s := (wordsToBlocks (bytesToWords (sha512Pad msg))).foldl compressBlock sha512Init
  toBytesBE 8 s.a ++ toBytesBE 8 s.b ++ toBytesBE 8 s.c ++ toBytesBE 8 s.d ++
    toBytesBE 8 s.e ++ toBytesBE 8 s.f ++ toBytesBE 8 s.g ++ toBytesBE 8 s.h

def hexDigit (n : Nat) : Char :=
  "0123456789abcdef".toList.getD n '0'

/-- A byte as two lowercase hex digits (Rust's `{:02x}` for a byte value). -/
def hexByte (b : Nat) : String :=
  String.mk [hexDigit (b / 16 % 16), hexDigit (b % 16)]

/-- `to_hex_string` from src/utils/src/iptables.rs: fold over the bytes,
appending each formatted as two lowercase hex digits. -/
def toHexString (bytes : List Nat) : String :=
  bytes.foldl (fun output b => output ++ hexByte b) ""

/-- `CHAIN_PREFIX` from src/utils/src/iptables.rs. -/
def chainPre : String := "CNI-"

/-- `MAX_CHAIN_LENGTH` from src/utils/src/iptables.rs. -/
def maxChainLen : Nat := 28

/-- Truncation to the first `n` characters.  The Rust source slices the first
`n` bytes of the UTF-8 string; the string being truncated here is ASCII
("CNI-" followed by hex digits), so byte and character truncation agree. -/
def strTake (s : String) (n : Nat) : String := String.mk (s.toList.take n)

/-- The UTF-8 bytes of a string, as numeric values. -/
def strBytes (s : String) : List Nat := s.toUTF8.toList.map (fun b => b.toNat)

/-- `format_chain_name` from src/utils/src/iptables.rs: SHA-512 of
`name ++ id`, hex-encoded, prefixed with `CHAIN_PREFIX` and truncated to
`MAX_CHAIN_LENGTH` bytes. -/
def formatChainName (name id : String) : String :=
  let toHash := name ++ id
  let hash := sha512 (strBytes toHash)
  let result := chainPre ++ toHexString hash
  strTake result (min maxChainLen result.length)

/-! ### CNI data model (src/cni-core/src/types.rs, src/bridge/src/types.rs) -/

/-- `Ip` from src/cni-core/src/types.rs: one address assignment. -/
structure Ip where
  address : IpNetwork
  gateway : Option IpAddr := none
  interface : Option Nat := none
deriving DecidableEq, Repr

/-- `Route` from src/cni-core/src/types.rs. -/
structure Route where
  dst : IpNetwork
  gw : Option IpAddr := none
deriving DecidableEq, Repr

/-- `Interface` from src/cni-core/src/types.rs (MAC and sandbox path kept as
plain strings). -/
structure Interface where
  name : String
  mac : Option String := none
  sandbox : Option String := none
deriving DecidableEq, Repr

/-- `Dns` from src/cni-core/src/types.rs. -/
structure Dns where
  nameservers : List IpAddr := []
  domain : Option String := none
  search : List String := []
  options : List String := []
deriving DecidableEq, Repr

/-- `ExecResult` from src/cni-core/src/types.rs. -/
structure ExecResult where
  cniVersion : Option String := none
  interfaces : Option (List Interface) := none
  ips : Option (List Ip) := none
  routes : Option (List Route) := none
  dns : Option Dns := none
deriving DecidableEq, Repr

/-- `NetConf` from src/bridge/src/types.rs (the fields the core reads). -/
structure NetConf where
  name : String
  brName : Option String := none
  isGw : Option Bool := none
  isDefaultGw : Option Bool := none
  forceAddress : Option Bool := none
  ipMasq : Option Bool := none
  mtu : Option Nat := none
  promiscMode : Option Bool := none
deriving DecidableEq, Repr

/-- `GatewayInfo` from src/bridge/src/main.rs.  The `Default` impl gives an
empty list, family `0` and `false`. -/
structure GatewayInfo where
  gws : List IpNetwork := []
  family : Nat := 0
  defaultRouteFound : Bool := false
deriving DecidableEq, Repr

/-! ### `calc_gateway` (src/bridge/src/main.rs, lines 161-223) -/

/-- The scan of `ipam_result.routes` performed under `is_default_gw`: is there
a route carrying a gateway whose destination address is unspecified?  (The
source iterates with an early `break`; `List.any` is its value.)  A `None`
routes field scans as empty. -/
def scanDefaultRoute (routes : Option (List Route)) : Bool :=
  (routes.getD []).any (fun r => r.gw.isSome && r.dst.ip.isUnspecified)

/-- The body of `calc_gateway`'s `for ip in ips.iter_mut()` loop for one
assignment: set `interface` to 2, derive a missing gateway via `next_ip` when
`is_gw` (IPv6 panics there), optionally append the `0.0.0.0/0` default route,
and under `is_gw` build the gateway network (`unwrap` panics when the gateway
is still absent; `with_netmask` failure is a recoverable error).  Returns the
updated assignment, the updated routes and the `GatewayInfo` pushed for this
assignment (if any).  The scan is evaluated in the source only under
`is_default_gw`; it is side-effect free, so evaluating it eagerly and using it
under `isDefaultGw && ...` is the same function. -/
def calcGatewayStep (isGw isDefaultGw : Bool) (routes : Option (List Route)) (ip0 : Ip) :
    Outcome (Ip × Option (List Route) × Option GatewayInfo) :=
  let ip1 : Ip := { ip0 with interface := some 2 }
  match (if ip1.gateway.isNone && isGw then nextIp ip1.address.ip else .ok ip1.gateway) with
  | .err m => .err m
  | .panic m => .panic m
  | .ok g =>
    let ip2 : Ip := { ip1 with gateway := g }
    let fam := if ip2.address.isIpv4 then FAMILY_V4 else FAMILY_V6
    let found := scanDefaultRoute routes
    let routes1 :=
      if isDefaultGw && !found then some (routes.getD [] ++ [{ dst := ⟨.v4 0, 0⟩, gw := ip2.gateway }])
      else routes
    if isGw then
      match ip2.gateway with
      | none => .panic "called Option unwrap on a None value"
      | some gwIp =>
        match withNetmask gwIp ip2.address.mask with
        | .error m => .err m
        | .ok gwNet =>
          .ok (ip2, routes1,
            some { gws := [gwNet], family := fam, defaultRouteFound := isDefaultGw && found })
    else .ok (ip2, routes1, none)

/-- `calc_gateway`'s loop over the assignments, threading the mutable
`ipam_result.routes` and accumulating the `gws` vector in iteration order. -/
def calcGatewayLoop (isGw isDefaultGw : Bool) :
    List Ip → Option (List Route) → Outcome (List Ip × Option (List Route) × List GatewayInfo)
  | [], routes => .ok ([], routes, [])
  | ip :: rest, routes =>
    match calcGatewayStep isGw isDefaultGw routes ip with
    | .err m => .err m
    | .panic m => .panic m
    | .ok (ip2, routes1, gi) =>
      match calcGatewayLoop isGw isDefaultGw rest routes1 with
      | .err m => .err m
      | .panic m => .panic m
      | .ok (ips2, routes2, gws) =>
        .ok (ip2 :: ips2, routes2,
          match gi with
          | some g => g :: gws
          | none => gws)

/-- `calc_gateway` from src/bridge/src/main.rs: errors when the delegate
returned no `ips`; otherwise runs the loop and returns the updated result
together with the per-assignment `GatewayInfo` list. -/
def calcGateway (ipamResult : ExecResult) (conf : NetConf) :
    Outcome (ExecResult × List GatewayInfo) :=
  match ipamResult.ips with
  | none => .err "IPAM plugin returned missing IP config"
  | some ips =>
    match calcGatewayLoop (conf.isGw.getD false) (conf.isDefaultGw.getD false) ips
        ipamResult.routes with
    | .err m => .err m
    | .panic m => .panic m
    | .ok (ips2, routes2, gws) =>
      .ok ({ ipamResult with ips := some ips2, routes := routes2 }, gws)

/-! ### Kernel link/address state and the netlink operations

The netlink library (`netlink_ng`) is an external collaborator; its
link/address primitives are modelled as pure functions on an explicit
`KernelState`.  A link is identified by its name (the model's stand-in for a
kernel interface index).  `link_add` failures other than "already exists" are
modelled by a fault-injection field, since they originate outside the
embedded code. -/

/-- `LinkAttrs` (the attributes the bridge core sets). -/
structure LinkAttrs where
  name : String
  mtu : Nat := 0
deriving DecidableEq, Repr

/-- `LinkKind`: the device kinds this core distinguishes. -/
inductive LinkKind where
  | bridge (vlanFiltering : Option Bool)
  | veth (peerName : String)
  | other
deriving DecidableEq, Repr

structure Link where
  linkAttrs : LinkAttrs
  linkKind : LinkKind
deriving DecidableEq, Repr

/-- `Link::attrs()`. -/
def Link.attrs (l : Link) : LinkAttrs := l.linkAttrs

/-- `as_index()`: the model uses the name as the kernel index. -/
def Link.asIndex (l : Link) : String := l.linkAttrs.name

/-- A netlink error, as classified by src/cni-core/src/error.rs: an
`io::ErrorKind::AlreadyExists` error, or anything else. -/
inductive NlError where
  | alreadyExists
  | other (msg : String)
deriving DecidableEq, Repr

/-- `is_already_exists_error` from src/cni-core/src/error.rs. -/
def isAlreadyExistsError : NlError → Bool
  | .alreadyExists => true
  | .other _ => false

/-- The modelled kernel network state: devices, per-device addresses (in
kernel list order), up/promiscuous flags, sysctl values, and an injected
fault for `link_add` (to model creation failures other than "already
exists"). -/
structure KernelState where
  links : List Link := []
  addrs : List (String × IpNetwork) := []
  upLinks : List String := []
  promiscLinks : List String := []
  sysctls : List (String × String) := []
  linkAddFault : Option String := none
deriving DecidableEq, Repr

/-- `netlink_ng::link_by_name`. -/
def linkByName (s : KernelState) (name : String) : Option Link :=
  s.links.find? (fun l => l.linkAttrs.name == name)

/-- `netlink_ng::link_add`: fails with `AlreadyExists` when a device of that
name exists; an injected fault produces a different error. -/
def linkAdd (s : KernelState) (l : Link) : Except NlError KernelState :=
  match s.linkAddFault with
  | some m => .error (.other m)
  | none =>
    if (linkByName s l.linkAttrs.name).isSome then .error .alreadyExists
    else .ok { s with links := s.links ++ [l] }

/-- `netlink_ng::link_set_up`. -/
def linkSetUp (s : KernelState) (idx : String) : KernelState :=
  if s.upLinks.contains idx then s else { s with upLinks := s.upLinks ++ [idx] }

/-- `netlink_ng::set_promisc_on`. -/
def setPromiscOn (s : KernelState) (idx : String) : KernelState :=
  if s.promiscLinks.contains idx then s else { s with promiscLinks := s.promiscLinks ++ [idx] }

/-- `utils::sysctl_set`: write a kernel policy value (keyed overwrite). -/
def sysctlSet (s : KernelState) (key val : String) : KernelState :=
  { s with sysctls := (key, val) :: s.sysctls.filter (fun kv => kv.fst != key) }

/-- The family tag of a candidate address (`ensure_addr`'s `match ip`). -/
def familyOfNet (n : IpNetwork) : Nat :=
  match n.addr with
  | .v4 _ => FAMILY_V4
  | .v6 _ => FAMILY_V6

/-- `netlink_ng::addr_list(link, family)`: the device's addresses of that
family, in kernel order. -/
def addrList (s : KernelState) (idx : String) (family : Nat) : List IpNetwork :=
  (s.addrs.filter (fun p => p.fst == idx && familyOfNet p.snd == family)).map (fun p => p.snd)

/-- `netlink_ng::addr_del`. -/
def addrDel (s : KernelState) (idx : String) (a : IpNetwork) : KernelState :=
  { s with addrs := s.addrs.filter (fun p => !(p.fst == idx && p.snd == a)) }

/-- `netlink_ng::addr_add`. -/
def addrAdd (s : KernelState) (idx : String) (a : IpNetwork) : KernelState :=
  { s with addrs := s.addrs ++ [(idx, a)] }

/-! ### `ensure_bridge` (src/bridge/src/main.rs, lines 324-359) -/

inductive BridgeError where
  | linkAddFailed (msg : String)
  | bridgeNotFound
  | notABridge (name : String)
deriving DecidableEq, Repr

/-- `bridge_by_name` from src/bridge/src/main.rs: resolve by name and fail
when the resolved device is not a bridge. -/
def bridgeByName (brName : String) (s : KernelState) : Except BridgeError (Option Link) :=
  match linkByName s brName with
  | none => .ok none
  | some l =>
    match l.linkKind with
    | .bridge _ => .ok (some l)
    | _ => .error (.notABridge brName)

/-- `ensure_bridge` from src/bridge/src/main.rs: attempt creation, swallow an
"already exists" failure and fail on any other; optionally set promiscuous
mode on the device resolved by name; re-resolve by name (failing when the
device is missing or not a bridge); set the `accept_ra` sysctl; bring the
device up.  Returns the resolved device together with the updated state. -/
def ensureBridge (brName : String) (mtu : Nat) (promiscMode vlanFiltering : Bool)
    (s : KernelState) : Except BridgeError (Link × KernelState) :=
  let br : Link := ⟨⟨brName, mtu⟩, .bridge (some vlanFiltering)⟩
  let afterAdd : Except BridgeError KernelState :=
    match linkAdd s br with
    | .error e => if !isAlreadyExistsError e then .error (.linkAddFailed "link add failed") else .ok s
    | .ok s1 => .ok s1
  match afterAdd with
  | .error e => .error e
  | .ok s1 =>
    let afterPromisc : Except BridgeError KernelState :=
      if promiscMode then
        match linkByName s1 brName with
        | none => .error .bridgeNotFound
        | some l => .ok (setPromiscOn s1 l.asIndex)
      else .ok s1
    match afterPromisc with
    | .error e => .error e
    | .ok s2 =>
      match bridgeByName brName s2 with
      | .error e => .error e
      | .ok none => .error .bridgeNotFound
      | .ok (some brLink) =>
        let s3 := sysctlSet s2 ("net/ipv6/conf/" ++ brName ++ "/accept_ra") "1"
        let s4 := linkSetUp s3 brLink.asIndex
        .ok (brLink, s4)

/-! ### `ensure_addr` (src/bridge/src/main.rs, lines 122-159) -/

/-- The conflict error raised by `ensure_addr`'s `bail!`, which names the
bridge and the candidate address ("{br} already has an IP address different
from {ip}"). -/
inductive AddrError where
  | conflict (bridge : String) (candidate : IpNetwork)
deriving DecidableEq, Repr

/-- `ensure_addr`'s loop over the address snapshot: an address with the same
IP means early success (`true` = returned early, with the state as mutated so
far); otherwise an IPv4 or subnet-overlapping address is a conflict — fatal
without `force_address`, deleted with it. -/
def ensureAddrLoop (brName : String) (ip : IpNetwork) (force : Bool) (family : Nat) :
    List IpNetwork → KernelState → Except AddrError (Bool × KernelState)
  | [], s => .ok (false, s)
  | a :: rest, s =>
    if a.ip == ip.ip then .ok (true, s)
    else if family == FAMILY_V4 || a.contains ip.ip || ip.contains a.ip then
      if !force then .error (.conflict brName ip)
      else ensureAddrLoop brName ip force family rest (addrDel s brName a)
    else ensureAddrLoop brName ip force family rest s

/-- `ensure_addr` from src/bridge/src/main.rs: list the bridge's addresses of
the candidate's family, run the conflict loop over that snapshot, and (unless
the loop returned early on an identical IP) add the candidate. -/
def ensureAddr (br : Link) (ip : IpNetwork) (force : Bool) (s : KernelState) :
    Except AddrError KernelState :=
  let family := familyOfNet ip
  match ensureAddrLoop br.attrs.name ip force family (addrList s br.asIndex family) s with
  | .error e => .error e
  | .ok (true, s1) => .ok s1
  | .ok (false, s1) => .ok (addrAdd s1 br.asIndex ip)

/-! ### `make_veth` (src/ip/src/link.rs, lines 42-82)

The veth-pair creation itself (`make_veth_pair`) is a kernel effect; it is
abstracted by an oracle `create : String → Bool` giving the success of an
attempt with a given host-side peer name, and the random name generator by
`gen : Nat → String` (the name produced before the n-th creation attempt).
The model also returns how many creation attempts were made. -/

/-- `random_veth_name` from src/ip/src/link.rs: "veth" followed by the four
entropy bytes, each formatted `{:02x}`. -/
def randomVethName (e0 e1 e2 e3 : Nat) : String :=
  "veth" ++ hexByte e0 ++ hexByte e1 ++ hexByte e2 ++ hexByte e3

/-- The `for i in 0..10` loop of `make_veth`.  Each iteration regenerates the
peer name when the requested host name is empty and attempts creation; on
success it returns the peer name, and on failure the `Err` arm of the source
`bail!`s — returning the error from the whole function without iterating
further (which is why the recursive call appears only in the fuel-exhausted
dead branch below). -/
def makeVethLoop (hostVethName : String) (gen : Nat → String) (create : String → Bool) :
    Nat → String → Nat → Except String String × Nat
  | 0, _, attempts => (.error "failed to create veth pair", attempts)
  | _ + 1, peerName0, attempts =>
    let peerName := if hostVethName.isEmpty then gen attempts else peerName0
    if create peerName then (.ok peerName, attempts + 1)
    else (.error "make_veth_pair failed", attempts + 1)

/-- `make_veth` from src/ip/src/link.rs: run the creation loop with 10
iterations available, starting from the requested host-side name and zero
attempts made. -/
def makeVeth (hostVethName : String) (gen : Nat → String) (create : String → Bool) :
    Except String String × Nat :=
  makeVethLoop hostVethName gen create 10 hostVethName 0

/-! ### `cmd_add` (src/bridge/src/main.rs, lines 33-112) as an event trace

The orchestrator's externally visible steps are modelled as an event trace in
program order.  Kernel and delegate effects are abstracted as
always-succeeding events (the three created interfaces and the delegate's
output are parameters); `calc_gateway` is the embedded function above, so a
delegate output that makes it fail or panic makes `cmd_add` fail or panic. -/

inductive Event where
  | ensureBridge
  | setupVeth
  | delegateAdd
  | calcGateway
  | configInterface
  | ensureAddr (gw : IpNetwork)
  | enableForward (family : Nat)
  | setupMasq (address : IpNetwork) (chain : String)
  | emitResult
deriving DecidableEq, Repr

/-- The events of the `if net_conf.is_gw` block: per `GatewayInfo`, one
`ensureAddr` per gateway network, then `enableForward` when the gateway list
is non-empty. -/
def gwEvents (gatewayInfos : List GatewayInfo) : List Event :=
  (gatewayInfos.map (fun gi =>
    gi.gws.map Event.ensureAddr ++ if gi.gws.isEmpty then [] else [Event.enableForward gi.family])).flatten

/-- The events of the `if net_conf.ip_masq` block: one `setupMasq` per
delegate-assigned address, with the derived chain name. -/
def masqEvents (ips : Option (List Ip)) (chain : String) : List Event :=
  (ips.getD []).map (fun ip => Event.setupMasq ip.address chain)

/-- `cmd_add` from src/bridge/src/main.rs, successful-path event trace:
normalize `is_default_gw → is_gw`, ensure the bridge, provision the veth
pair, invoke the delegate, run `calc_gateway`, configure the container-side
interface inside the namespace, then apply gateway addresses/forwarding,
then masquerade rules, then emit the result. -/
def cmdAdd (conf0 : NetConf) (ifaces : List Interface) (ipamResult : ExecResult)
    (containerId : String) : Outcome (ExecResult × List Event) :=
  let conf := if conf0.isDefaultGw.getD false then { conf0 with isGw := some true } else conf0
  let bridgeResult : ExecResult :=
    { cniVersion := some "1.0.0", interfaces := some ifaces, ips := ipamResult.ips,
      routes := ipamResult.routes, dns := ipamResult.dns }
  match calcGateway bridgeResult conf with
  | .err m => .err m
  | .panic m => .panic m
  | .ok (bridgeResult2, gatewayInfos) =>
    let headEvents := [Event.ensureBridge, Event.setupVeth, Event.delegateAdd,
                       Event.calcGateway, Event.configInterface]
    let gwEvs := if conf.isGw.getD false then gwEvents gatewayInfos else []
    let masqEvs :=
      if conf.ipMasq.getD false then
        masqEvents bridgeResult2.ips (formatChainName conf.name containerId)
      else []
    .ok (bridgeResult2, headEvents ++ gwEvs ++ masqEvs ++ [Event.emitResult])

/-! ### Helper lemmas -/

/-- `10.10.0.5`-style dotted-quad notation for IPv4 addresses. -/
def addr4 (a b c d : Nat) : IpAddr := .v4 (((a * 256 + b) * 256 + c) * 256 + d)

/-- The scenario configuration of the spec: `{name: "mynet", bridge: "br0",
isGateway: true, isDefaultGateway: true, ipMasq: true}`. -/
def c2Conf : NetConf :=
  { name := "mynet", brName := some "br0", isGw := some true, isDefaultGw := some true,
    ipMasq := some true }

/-- The delegate output of the scenario: `10.10.0.5/24`, no gateway. -/
def c2Delegate : ExecResult := { ips := some [{ address := ⟨addr4 10 10 0 5, 24⟩ }] }

/-- The three reported interfaces (bridge, host veth, container veth). -/
def c2Ifaces : List Interface :=
  [{ name := "br0" }, { name := "veth82b72cf1" }, { name := "eth0" }]

/-- The result the code actually produces on the scenario. -/
def c2Result : ExecResult :=
  { cniVersion := some "1.0.0", interfaces := some c2Ifaces,
    ips := some [{ address := ⟨addr4 10 10 0 5, 24⟩, gateway := some (addr4 10 10 0 6),
                   interface := some 2 }],
    routes := some [{ dst := ⟨.v4 0, 0⟩, gw := some (addr4 10 10 0 6) }] }

/-- The event trace the code actually produces on the scenario. -/
def c2Events : List Event :=
  [.ensureBridge, .setupVeth, .delegateAdd, .calcGateway, .configInterface,
   .ensureAddr ⟨addr4 10 10 0 6, 24⟩, .enableForward FAMILY_V4,
   .setupMasq ⟨addr4 10 10 0 5, 24⟩ (formatChainName "mynet" "abc"), .emitResult]

/-- A delegate output with a single IPv6 assignment (`::5/64`, gateway `::1`)
and no routes. -/
def c3Delegate : ExecResult :=
  { ips := some [{ address := ⟨.v6 5, 64⟩, gateway := some (.v6 1) }], routes := none }

def c3Conf : NetConf := { name := "n3", isGw := some true, isDefaultGw := some true }

/-- The result `calc_gateway` actually produces on `c3Delegate`. -/
def c3Out : ExecResult :=
  { ips := some [{ address := ⟨.v6 5, 64⟩, gateway := some (.v6 1), interface := some 2 }],
    routes := some [{ dst := ⟨.v4 0, 0⟩, gw := some (.v6 1) }] }

def c3Gws : List GatewayInfo :=
  [{ gws := [⟨.v6 1, 64⟩], family := FAMILY_V6, defaultRouteFound := false }]

def c4Conf : NetConf :=
  { name := "net4", isGw := some true, isDefaultGw := some true, ipMasq := some false }

def c4Delegate : ExecResult :=
  { ips := some [{ address := ⟨addr4 192 168 1 5, 24⟩ }] }

def c4Ifaces : List Interface :=
  [{ name := "cni0" }, { name := "veth1" }, { name := "eth0" }]

/-- The result `cmd_add` produces on the C4 scenario. -/
def c4Result : ExecResult :=
  { cniVersion := some "1.0.0", interfaces := some c4Ifaces,
    ips := some [{ address := ⟨addr4 192 168 1 5, 24⟩, gateway := some (addr4 192 168 1 6),
                   interface := some 2 }],
    routes := some [{ dst := ⟨.v4 0, 0⟩, gw := some (addr4 192 168 1 6) }] }

/-- The event trace `cmd_add` produces on the C4 scenario. -/
def c4Events : List Event :=
  [.ensureBridge, .setupVeth, .delegateAdd, .calcGateway, .configInterface,
   .ensureAddr ⟨addr4 192 168 1 6, 24⟩, .enableForward FAMILY_V4, .emitResult]

def c7Bridge : Link := ⟨⟨"br0", 1500⟩, .bridge none⟩

def c7Cand : IpNetwork := ⟨addr4 10 0 0 1, 24⟩

/-- A bridge whose kernel address list holds `10.0.0.2/24` *before* the
address equal to the candidate `10.0.0.1/24`. -/
def c7State : KernelState :=
  { links := [c7Bridge],
    addrs := [("br0", ⟨addr4 10 0 0 2, 24⟩), ("br0", c7Cand)] }

def c6State : KernelState := { addrs := [("br0", ⟨.v4 1, 24⟩)] }

/-- The routes that `calc_gateway` adds: everything in the output's routes
list past the input's. -/
def routesOf (r : ExecResult) : List Route := r.routes.getD []

def newRoutes (inp out : ExecResult) : List Route :=
  (routesOf out).drop (routesOf inp).length

def defaultRouteCount (routes : Option (List Route)) : Nat :=
  ((routes.getD []).filter (fun r => r.gw.isSome && r.dst.ip.isUnspecified)).length

/-- The C8 witness delegate output: one IPv4 assignment with a gateway, and
an existing default route `0.0.0.0/0 -> 10.1.0.1`. -/
def c8In : ExecResult :=
  { ips := some [{ address := ⟨addr4 10 1 0 5, 24⟩, gateway := some (addr4 10 1 0 1) }],
    routes := some [{ dst := ⟨.v4 0, 0⟩, gw := some (addr4 10 1 0 1) }] }

def c8Conf : NetConf := { name := "n8", isGw := some true, isDefaultGw := some true }

def c8Out : ExecResult :=
  { ips := some [{ address := ⟨addr4 10 1 0 5, 24⟩, gateway := some (addr4 10 1 0 1),
                   interface := some 2 }],
    routes := some [{ dst := ⟨.v4 0, 0⟩, gw := some (addr4 10 1 0 1) }] }

def c8Gws : List GatewayInfo :=
  [{ gws := [⟨addr4 10 1 0 1, 24⟩], family := FAMILY_V4, defaultRouteFound := true }]

/-- The events of the two policy blocks that run between the container-side
configuration and result emission. -/
def isPolicyEvent : Event → Bool
  | .ensureAddr _ => true
  | .enableForward _ => true
  | .setupMasq _ _ => true
  | _ => false

/-- The bridge device `ensure_bridge` constructs. -/
def brOf (brName : String) (mtu : Nat) (vf : Bool) : Link :=
  ⟨⟨brName, mtu⟩, .bridge (some vf)⟩

/-- The `accept_ra` sysctl key `ensure_bridge` writes. -/
def raKey (brName : String) : String := "net/ipv6/conf/" ++ brName ++ "/accept_ra"

def c5State : KernelState := {}

theorem toBytesBE_length (n v : Nat) : (toBytesBE n v).length = n := by
  simp [toBytesBE]

theorem sha512_length (msg : List Nat) : (sha512 msg).length = 64 := by
  simp [sha512, toBytesBE_length]

theorem hexByte_length (b : Nat) : (hexByte b).length = 2 := rfl

theorem toHexString_aux_length (bytes : List Nat) (acc : String) :
    (bytes.foldl (fun output b => output ++ hexByte b) acc).length =
      acc.length + 2 * bytes.length := by
  induction bytes generalizing acc with
  | nil => simp
  | cons b rest ih =>
    rw [List.foldl_cons, ih]
    simp [String.length_append, hexByte_length]
    omega

theorem toHexString_length (bytes : List Nat) :
    (toHexString bytes).length = 2 * bytes.length := by
  simpa [toHexString] using toHexString_aux_length bytes ""

theorem strTake_length (s : String) (n : Nat) :
    (strTake s n).length = min n s.length := by
  show (s.toList.take n).length = min n s.length
  rw [List.length_take]
  rfl

/-! ### C9: chain-name derivation -/

/-- C9: Chain-name derivation is a pure, deterministic function of the pair
(network name, container ID): identical inputs yield the identical chain
name, the output is the hex-encoded SHA-512 digest of the concatenation,
prefixed with the fixed prefix "CNI-" and truncated, and its length is at
most 28 characters (indeed exactly 28). -/
theorem formatChainName_pure_truncated_bounded (name id name2 id2 : String)
    (hsame : (name, id) = (name2, id2)) :
    formatChainName name id =
      strTake (chainPre ++ toHexString (sha512 (strBytes (name ++ id))))
        (min maxChainLen (chainPre ++ toHexString (sha512 (strBytes (name ++ id)))).length) ∧
    (formatChainName name id).length = 28 ∧
    (formatChainName name id).length ≤ 28 ∧
    formatChainName name id = formatChainName name2 id2 := by
  have hlen : (formatChainName name id).length = 28 := by
    have h132 : (chainPre ++ toHexString (sha512 (strBytes (name ++ id)))).length = 132 := by
      simp [String.length_append, toHexString_length, sha512_length]
      rfl
    simp [formatChainName, strTake_length, h132, maxChainLen]
  refine ⟨rfl, hlen, hlen.le, ?_⟩
  obtain ⟨h1, h2⟩ := Prod.mk.injEq .. ▸ hsame
  rw [h1, h2]

/-- Witness for C9 at the concrete pair ("mynet", "abc"). -/
theorem formatChainName_pure_truncated_bounded_witness :
    (("mynet", "abc") = ("mynet", "abc")) ∧
    (formatChainName "mynet" "abc" =
      strTake (chainPre ++ toHexString (sha512 (strBytes ("mynet" ++ "abc"))))
        (min maxChainLen
          (chainPre ++ toHexString (sha512 (strBytes ("mynet" ++ "abc")))).length) ∧
    (formatChainName "mynet" "abc").length = 28 ∧
    (formatChainName "mynet" "abc").length ≤ 28 ∧
    formatChainName "mynet" "abc" = formatChainName "mynet" "abc") :=
  ⟨rfl, formatChainName_pure_truncated_bounded "mynet" "abc" "mynet" "abc" rfl⟩

/-! ### C1: the veth creation retry loop -/

/-- C1 (code bug): whenever the first creation attempt fails — e.g. the
random host-side name collides with an existing device — `make_veth` with an
empty requested host name returns the `make_veth_pair failed` error after
exactly one creation attempt: the `bail!` in the `Err` arm of the loop body
exits the whole function, so the `for i in 0..10` retry loop never reaches a
second iteration (and the post-loop "failed to create veth pair" error is
unreachable), contrary to the specified 10-attempt retry behaviour. -/
theorem makeVeth_no_retry (gen : Nat → String) (create : String → Bool)
    (hfail : create (gen 0) = false) :
    makeVeth "" gen create = (.error "make_veth_pair failed", 1) := by
  have hempty : "".isEmpty = true := rfl
  simp [makeVeth, makeVethLoop, hempty, hfail]

/-- Witness for C1: every attempt with the first generated name fails while
the second generated name would succeed, yet `make_veth` stops after one
attempt. -/
theorem makeVeth_no_retry_witness :
    (fun s => s == "veth00000001") ((fun n : Nat => "veth0000000" ++ toString n) 0) = false ∧
    (fun s => s == "veth00000001") ((fun n : Nat => "veth0000000" ++ toString n) 1) = true ∧
    makeVeth "" (fun n => "veth0000000" ++ toString n) (fun s => s == "veth00000001") =
      (.error "make_veth_pair failed", 1) :=
  ⟨by decide, by decide,
    makeVeth_no_retry (fun n => "veth0000000" ++ toString n)
      (fun s => s == "veth00000001") (by decide)⟩

/-! ### C10: IPv6 assignments without a gateway panic -/

/-- C10: for every IPv6 delegate assignment carrying no gateway, when
`isGateway` is requested the gateway calculation aborts with the `todo!()`
panic of `next_ip`'s IPv6 arm instead of returning an error value: the
calculator is not total over such assignments. -/
theorem calcGateway_ipv6_panics (a p : Nat) (i : Option Nat) (rest : List Ip)
    (res : ExecResult) (conf : NetConf)
    (hgw : conf.isGw = some true)
    (hips : res.ips = some ({ address := ⟨.v6 a, p⟩, gateway := none, interface := i } :: rest)) :
    calcGateway res conf = .panic "not yet implemented" := by
  simp [calcGateway, hips, calcGatewayLoop, calcGatewayStep, hgw, nextIp, IpNetwork.ip]

/-- Witness for C10 at the assignment `::5/64`. -/
theorem calcGateway_ipv6_panics_witness :
    ({ name := "n", isGw := some true } : NetConf).isGw = some true ∧
    ({ ips := some [{ address := ⟨.v6 5, 64⟩ }] } : ExecResult).ips =
      some [{ address := ⟨.v6 5, 64⟩, gateway := none, interface := none }] ∧
    calcGateway { ips := some [{ address := ⟨.v6 5, 64⟩ }] } { name := "n", isGw := some true } =
      .panic "not yet implemented" :=
  ⟨rfl, rfl, calcGateway_ipv6_panics 5 64 none [] _ _ rfl rfl⟩

/-! ### C2: the `{isGateway, isDefaultGateway}` scenario with `10.10.0.5/24` -/

/-- C2 counterexample: on the spec's scenario the gateway calculator derives
`10.10.0.6` — the numeric increment of the assigned address `10.10.0.5` —
not `10.10.0.1`; the bridge receives `10.10.0.6/24` (never `10.10.0.1/24`)
and the appended default route's gateway is `10.10.0.6`. -/
theorem c2_counterexample :
    cmdAdd c2Conf c2Ifaces c2Delegate "abc" = .ok (c2Result, c2Events) ∧
    c2Result.ips = some [{ address := ⟨addr4 10 10 0 5, 24⟩,
                           gateway := some (addr4 10 10 0 6), interface := some 2 }] ∧
    some (addr4 10 10 0 6) ≠ some (addr4 10 10 0 1) ∧
    c2Result.routes = some [{ dst := ⟨.v4 0, 0⟩, gw := some (addr4 10 10 0 6) }] ∧
    Event.ensureAddr ⟨addr4 10 10 0 1, 24⟩ ∉ c2Events := by
  refine ⟨rfl, rfl, by decide, rfl, by decide⟩

/-- C2 as amended: on the scenario the derived gateway is `10.10.0.6`
(the numeric increment of the assigned address), the bridge receives address
`10.10.0.6/24`, the appended default route is `0.0.0.0/0 -> 10.10.0.6`, and
IPv4 forwarding is enabled. -/
theorem c2_amended_scenario :
    cmdAdd c2Conf c2Ifaces c2Delegate "abc" = .ok (c2Result, c2Events) ∧
    c2Result.routes = some [{ dst := ⟨.v4 0, 0⟩, gw := some (addr4 10 10 0 6) }] ∧
    Event.ensureAddr ⟨addr4 10 10 0 6, 24⟩ ∈ c2Events ∧
    Event.enableForward FAMILY_V4 ∈ c2Events := by
  refine ⟨rfl, rfl, by decide, by decide⟩

/-! ### C3 counterexample: the synthesized default route is always IPv4 -/

/-- C3 counterexample: for an IPv6 assignment (family `F = IPv6`) with
`isDefaultGateway` requested and no existing default route, the synthesized
default route's destination is the IPv4 unspecified network `0.0.0.0/0`, not
the unspecified network `::/0` of family `F`. -/
theorem c3_counterexample :
    calcGateway c3Delegate c3Conf = .ok (c3Out, c3Gws) ∧
    c3Out.routes = some [{ dst := ⟨.v4 0, 0⟩, gw := some (.v6 1) }] ∧
    (⟨.v4 0, 0⟩ : IpNetwork) ≠ ⟨.v6 0, 0⟩ ∧
    (⟨.v4 0, 0⟩ : IpNetwork).addr.isV6 = false := by
  refine ⟨rfl, rfl, by decide, rfl⟩

/-! ### C4 counterexample: container-side configuration runs first -/

/-- C4 counterexample: in a successful ADD invocation the container-side
interface configuration (position 4 of the trace) runs BEFORE the gateway
address is applied to the bridge (position 5) and before forwarding is
enabled (position 6), and the step immediately preceding result emission is
the forwarding toggle, not the container-side configuration — contradicting
the claimed ordering. -/
theorem c4_counterexample :
    cmdAdd c4Conf c4Ifaces c4Delegate "cid4" = .ok (c4Result, c4Events) ∧
    c4Events.findIdx (fun e => e == Event.configInterface) = 4 ∧
    c4Events.findIdx (fun e => e == Event.ensureAddr ⟨addr4 192 168 1 6, 24⟩) = 5 ∧
    c4Events.findIdx (fun e => e == Event.enableForward FAMILY_V4) = 6 ∧
    ¬ (c4Events.findIdx (fun e => e == Event.ensureAddr ⟨addr4 192 168 1 6, 24⟩) <
        c4Events.findIdx (fun e => e == Event.configInterface)) ∧
    c4Events[6]? = some (Event.enableForward FAMILY_V4) ∧
    c4Events[7]? = some Event.emitResult ∧
    Event.enableForward FAMILY_V4 ≠ Event.configInterface := by
  refine ⟨rfl, by decide, by decide, by decide, by decide, by decide, by decide, by decide⟩

/-! ### C7: reconciling an already-present IP -/

/-- C7 counterexample: although an address with exactly the candidate's IP is
present on the bridge, `ensure_addr` is not a no-op: the conflicting address
`10.0.0.2/24` precedes the matching one in the kernel's list, so without
`forceAddress` the call fails with the conflict error, and with
`forceAddress` it deletes `10.0.0.2/24` (the address set changes). -/
theorem c7_counterexample :
    c7Cand ∈ addrList c7State c7Bridge.asIndex (familyOfNet c7Cand) ∧
    ensureAddr c7Bridge c7Cand false c7State = .error (.conflict "br0" c7Cand) ∧
    ensureAddr c7Bridge c7Cand true c7State =
      .ok { c7State with addrs := [("br0", c7Cand)] } ∧
    ({ c7State with addrs := [("br0", c7Cand)] } : KernelState).addrs ≠ c7State.addrs := by
  refine ⟨by decide, rfl, rfl, by decide⟩

/-- C7 as amended: reconciling a candidate whose IP equals the IP of the
*first* address of its family on the bridge (in particular, of the only such
address) is a no-op: success, state unchanged, regardless of `forceAddress`. -/
theorem ensureAddr_matching_head_noop (br : Link) (cand : IpNetwork) (force : Bool)
    (s : KernelState) (a : IpNetwork) (rest : List IpNetwork)
    (hlist : addrList s br.asIndex (familyOfNet cand) = a :: rest)
    (hip : a.ip = cand.ip) :
    ensureAddr br cand force s = .ok s := by
  simp only [ensureAddr, hlist, ensureAddrLoop, hip, beq_self_eq_true, if_true]

/-- Witness for C7's amended claim: the candidate's IP is already the sole
address on the bridge. -/
theorem ensureAddr_matching_head_noop_witness :
    addrList { links := [c7Bridge], addrs := [("br0", c7Cand)] } c7Bridge.asIndex
      (familyOfNet c7Cand) = c7Cand :: [] ∧
    c7Cand.ip = c7Cand.ip ∧
    ensureAddr c7Bridge c7Cand true { links := [c7Bridge], addrs := [("br0", c7Cand)] } =
      .ok { links := [c7Bridge], addrs := [("br0", c7Cand)] } :=
  ⟨by decide, rfl,
    ensureAddr_matching_head_noop c7Bridge c7Cand true
      { links := [c7Bridge], addrs := [("br0", c7Cand)] } c7Cand [] (by decide) rfl⟩

/-! ### C6: distinct IPv4 gateway candidates conflict -/

/-- C6: for IPv4 gateway candidates with distinct IPs, with `G1` the
bridge's (sole) present address, reconciling `G2` without `forceAddress`
fails with the conflict error naming the bridge; with `forceAddress` it
deletes `G1` and adds `G2`, after which `G2` is present and `G1` is not. -/
theorem ensureAddr_v4_conflict_force (br : Link) (n1 p1 n2 p2 : Nat) (s : KernelState)
    (hne : n1 ≠ n2)
    (haddrs : s.addrs = [(br.asIndex, ⟨.v4 n1, p1⟩)]) :
    ensureAddr br ⟨.v4 n2, p2⟩ false s =
      .error (.conflict br.attrs.name ⟨.v4 n2, p2⟩) ∧
    ensureAddr br ⟨.v4 n2, p2⟩ true s =
      .ok { s with addrs := [(br.asIndex, ⟨.v4 n2, p2⟩)] } ∧
    (br.asIndex, (⟨.v4 n2, p2⟩ : IpNetwork)) ∈
      ({ s with addrs := [(br.asIndex, ⟨.v4 n2, p2⟩)] } : KernelState).addrs ∧
    (br.asIndex, (⟨.v4 n1, p1⟩ : IpNetwork)) ∉
      ({ s with addrs := [(br.asIndex, ⟨.v4 n2, p2⟩)] } : KernelState).addrs := by
  have hidx : br.asIndex = br.linkAttrs.name := rfl
  have hfam : familyOfNet ⟨.v4 n2, p2⟩ = FAMILY_V4 := rfl
  have hlist : addrList s br.linkAttrs.name FAMILY_V4 = [⟨.v4 n1, p1⟩] := by
    rw [← hidx]
    simp [addrList, haddrs, familyOfNet, FAMILY_V4]
  have hbe : ((IpAddr.v4 n1) == (IpAddr.v4 n2)) = false := by
    simp [hne]
  have hdel : addrDel s br.linkAttrs.name ⟨.v4 n1, p1⟩ = { s with addrs := [] } := by
    rw [← hidx]
    simp [addrDel, haddrs]
  constructor
  · simp only [ensureAddr, Link.attrs, Link.asIndex, hfam, hlist, ensureAddrLoop,
      IpNetwork.ip, hbe]
    simp [FAMILY_V4]
  constructor
  · simp only [ensureAddr, Link.attrs, Link.asIndex, hfam, hlist, ensureAddrLoop,
      IpNetwork.ip, hbe, Bool.not_true]
    simp only [FAMILY_V4, beq_self_eq_true, Bool.true_or, if_true, Bool.false_eq_true,
      if_false, hdel, ensureAddrLoop, addrAdd, hidx]
    rfl
  constructor
  · simp
  · intro hmem
    simp only [List.mem_singleton, Prod.mk.injEq, IpNetwork.mk.injEq, IpAddr.v4.injEq] at hmem
    exact hne hmem.2.1

/-- Witness for C6 with `G1 = 10.0.0.1-like 1/24` and `G2 = 2/24` on bridge
`br0`. -/
theorem ensureAddr_v4_conflict_force_witness :
    (1 : Nat) ≠ 2 ∧
    c6State.addrs = [(c7Bridge.asIndex, ⟨.v4 1, 24⟩)] ∧
    (ensureAddr c7Bridge ⟨.v4 2, 24⟩ false c6State =
        .error (.conflict c7Bridge.attrs.name ⟨.v4 2, 24⟩) ∧
      ensureAddr c7Bridge ⟨.v4 2, 24⟩ true c6State =
        .ok { c6State with addrs := [(c7Bridge.asIndex, ⟨.v4 2, 24⟩)] } ∧
      (c7Bridge.asIndex, (⟨.v4 2, 24⟩ : IpNetwork)) ∈
        ({ c6State with addrs := [(c7Bridge.asIndex, ⟨.v4 2, 24⟩)] } : KernelState).addrs ∧
      (c7Bridge.asIndex, (⟨.v4 1, 24⟩ : IpNetwork)) ∉
        ({ c6State with addrs := [(c7Bridge.asIndex, ⟨.v4 2, 24⟩)] } : KernelState).addrs) :=
  ⟨by decide, rfl, ensureAddr_v4_conflict_force c7Bridge 1 24 2 24 c6State (by decide) rfl⟩

/-! ### The default-route synthesis of `calc_gateway` (C3, C8) -/

/-- When the scan already finds a default route, one loop step leaves the
routes untouched. -/
theorem calcGatewayStep_found_routes (isGw isDefaultGw : Bool) (routes : Option (List Route))
    (ip : Ip)
    (hfound : scanDefaultRoute routes = true) :
    ∀ out, calcGatewayStep isGw isDefaultGw routes ip = .ok out → out.2.1 = routes := by
  unfold calcGatewayStep
  rw [hfound]
  simp only [Bool.not_true, Bool.and_false, Bool.false_eq_true, if_false]
  split
  · intro out h; cases h
  · intro out h; cases h
  · split
    · split
      · intro out h; cases h
      · split
        · intro out h; cases h
        · intro out h; cases h; rfl
    · intro out h; cases h; rfl

/-- When the scan already finds a default route, the whole loop leaves the
routes untouched (the appended route of an earlier iteration would itself be
found by later scans, so this also applies after a push). -/
theorem calcGatewayLoop_found_preserves (isGw isDefaultGw : Bool) (ips : List Ip) :
    ∀ (routes : Option (List Route)) out,
      scanDefaultRoute routes = true →
      calcGatewayLoop isGw isDefaultGw ips routes = .ok out → out.2.1 = routes := by
  induction ips with
  | nil =>
    intro routes out _ hok
    cases hok
    rfl
  | cons ip rest ih =>
    intro routes out hfound
    simp only [calcGatewayLoop]
    split
    · intro h; cases h
    · intro h; cases h
    · rename_i ip2 routes1 gi hstep
      have hroutes1 : routes1 = routes :=
        calcGatewayStep_found_routes isGw isDefaultGw routes ip hfound (ip2, routes1, gi) hstep
      subst hroutes1
      split
      · intro h; cases h
      · intro h; cases h
      · rename_i ips2 routes2 gws2 hrec
        intro h
        cases h
        exact ih routes1 (ips2, routes2, gws2) hfound hrec

/-- One loop step with `is_gw` set, when it succeeds, yields an assignment
with a present gateway and either leaves the routes unchanged or — only when
the scan found no default route — appends the single route
`0.0.0.0/0 -> gateway`. -/
theorem calcGatewayStep_routes_cases (isDefaultGw : Bool) (routes : Option (List Route))
    (ip : Ip) :
    ∀ out, calcGatewayStep true isDefaultGw routes ip = .ok out →
      out.1.gateway.isSome = true ∧
      (out.2.1 = routes ∨
        (scanDefaultRoute routes = false ∧
          out.2.1 = some (routes.getD [] ++ [{ dst := ⟨.v4 0, 0⟩, gw := out.1.gateway }]))) := by
  intro out h
  rcases hn : ip.gateway with _ | gw0
  · -- the assignment has no gateway: `next_ip` runs
    rcases ha : ip.address.addr with a | a
    · -- IPv4: `next_ip` yields an `Option`
      by_cases hlt : a + 1 < 2 ^ 32
      · simp only [calcGatewayStep, hn, ha, nextIp, IpNetwork.ip, Option.isNone_none,
          Bool.and_self, if_true, hlt] at h
        rcases hw : withNetmask (.v4 (a + 1)) ip.address.mask with m | gwNet
        · rw [hw] at h; cases h
        · rw [hw] at h
          cases h
          refine ⟨rfl, ?_⟩
          cases hf : scanDefaultRoute routes with
          | true => left; simp [hf]
          | false =>
            cases hdg : isDefaultGw with
            | false => left; simp [hf, hdg]
            | true => right; exact ⟨rfl, by simp [hf, hdg]⟩
      · -- overflow: gateway stays `None`, the later `unwrap` panics
        simp only [calcGatewayStep, hn, ha, nextIp, IpNetwork.ip, Option.isNone_none,
          Bool.and_self, if_true, hlt] at h
        cases h
    · -- IPv6: `next_ip` is `todo!()`
      simp only [calcGatewayStep, hn, ha, nextIp, IpNetwork.ip, Option.isNone_none,
        Bool.and_self, if_true] at h
      cases h
  · -- the assignment already carries a gateway
    rcases hw : withNetmask gw0 ip.address.mask with m | gwNet
    · simp only [calcGatewayStep, hn, Option.isNone_some, Bool.false_and, Bool.false_eq_true,
        if_false, hw] at h
      cases h
    · simp only [calcGatewayStep, hn, Option.isNone_some, Bool.false_and, Bool.false_eq_true,
        if_false, hw] at h
      cases h
      refine ⟨rfl, ?_⟩
      cases hf : scanDefaultRoute routes with
      | true => left; simp [hf]
      | false =>
        cases hdg : isDefaultGw with
        | false => left; simp [hf, hdg]
        | true => right; exact ⟨rfl, by simp [hf, hdg]⟩

/-- The loop with `is_gw` set appends at most one route, and any appended
route is the IPv4 default route carrying a present gateway. -/
theorem calcGatewayLoop_append_ex (isDefaultGw : Bool) (ips : List Ip) :
    ∀ (routes : Option (List Route)) out,
      calcGatewayLoop true isDefaultGw ips routes = .ok out →
      ∃ extra, out.2.1.getD [] = routes.getD [] ++ extra ∧ extra.length ≤ 1 ∧
        extra.all (fun r => r.dst == ⟨.v4 0, 0⟩ && r.gw.isSome) = true := by
  induction ips with
  | nil =>
    intro routes out hok
    cases hok
    exact ⟨[], by simp⟩
  | cons ip rest ih =>
    intro routes out
    simp only [calcGatewayLoop]
    split
    · intro h; cases h
    · intro h; cases h
    · rename_i ip2 routes1 gi hstep
      obtain ⟨hgwsome, hcases⟩ :=
        calcGatewayStep_routes_cases isDefaultGw routes ip (ip2, routes1, gi) hstep
      split
      · intro h; cases h
      · intro h; cases h
      · rename_i ips2 routes2 gws2 hrec
        intro h
        cases h
        rcases hcases with hsame | ⟨hscan, hpush⟩
        · subst hsame
          exact ih routes1 (ips2, routes2, gws2) hrec
        · simp only at hgwsome hpush
          have hfound1 : scanDefaultRoute routes1 = true := by
            simp [scanDefaultRoute, hpush, hgwsome, IpNetwork.ip, IpAddr.isUnspecified]
          have hpres : routes2 = routes1 :=
            calcGatewayLoop_found_preserves true isDefaultGw rest routes1
              (ips2, routes2, gws2) hfound1 hrec
          refine ⟨[{ dst := ⟨.v4 0, 0⟩, gw := ip2.gateway }], ?_, by simp, by simp [hgwsome]⟩
          rw [hpres, hpush]
          simp

/-- C3 as amended: with `isGateway` set (as the orchestrator guarantees when
`isDefaultGateway` is requested), a successful `calc_gateway` only ever
appends to the routes list, appends at most one route, any appended route is
the IPv4 default route `0.0.0.0/0` (regardless of the assignment's address
family) carrying a present gateway, and nothing is appended when some
existing unspecified-destination route of any family already carries a
gateway. -/
theorem calcGateway_default_route_append (inp : ExecResult) (conf : NetConf)
    (out : ExecResult) (gws : List GatewayInfo)
    (hgw : conf.isGw = some true)
    (hok : calcGateway inp conf = .ok (out, gws)) :
    routesOf out = routesOf inp ++ newRoutes inp out ∧
    (newRoutes inp out).length ≤ 1 ∧
    (newRoutes inp out).all (fun r => r.dst == ⟨.v4 0, 0⟩ && r.gw.isSome) = true ∧
    (scanDefaultRoute inp.routes = true → out.routes = inp.routes) := by
  revert hok
  unfold calcGateway
  rw [hgw]
  simp only [Option.getD_some]
  split
  · intro h; cases h
  · rename_i ips hips
    split
    · intro h; cases h
    · intro h; cases h
    · rename_i ips2 routes2 gws2 hloop
      intro h
      cases h
      obtain ⟨extra, heq, hlen, hall⟩ :=
        calcGatewayLoop_append_ex (conf.isDefaultGw.getD false) ips inp.routes
          _ hloop
      simp only at heq
      have hnew : newRoutes inp { inp with ips := some ips2, routes := routes2 } = extra := by
        simp only [newRoutes, routesOf, heq]
        exact List.drop_left _ _
      constructor
      · simp only [routesOf, hnew]
        exact heq
      refine ⟨by rw [hnew]; exact hlen, by rw [hnew]; exact hall, ?_⟩
      intro hscan
      have := calcGatewayLoop_found_preserves (true) (conf.isDefaultGw.getD false) ips
        inp.routes _ hscan hloop
      simpa using this

/-- Witness for C3's amended claim: a single IPv4 assignment with no gateway
and no routes; exactly the route `0.0.0.0/0 -> 10.2.0.6` is appended. -/
theorem calcGateway_default_route_append_witness :
    ({ name := "n3w", isGw := some true, isDefaultGw := some true } : NetConf).isGw =
      some true ∧
    calcGateway { ips := some [{ address := ⟨addr4 10 2 0 5, 24⟩ }] }
        { name := "n3w", isGw := some true, isDefaultGw := some true } =
      .ok ({ ips := some [{ address := ⟨addr4 10 2 0 5, 24⟩, gateway := some (addr4 10 2 0 6),
                            interface := some 2 }],
             routes := some [{ dst := ⟨.v4 0, 0⟩, gw := some (addr4 10 2 0 6) }] },
           [{ gws := [⟨addr4 10 2 0 6, 24⟩], family := FAMILY_V4, defaultRouteFound := false }]) ∧
    (routesOf { ips := some [{ address := ⟨addr4 10 2 0 5, 24⟩, gateway := some (addr4 10 2 0 6),
                               interface := some 2 }],
                routes := some [{ dst := ⟨.v4 0, 0⟩, gw := some (addr4 10 2 0 6) }] } =
      routesOf { ips := some [{ address := ⟨addr4 10 2 0 5, 24⟩ }] } ++
        newRoutes { ips := some [{ address := ⟨addr4 10 2 0 5, 24⟩ }] }
          { ips := some [{ address := ⟨addr4 10 2 0 5, 24⟩, gateway := some (addr4 10 2 0 6),
                           interface := some 2 }],
            routes := some [{ dst := ⟨.v4 0, 0⟩, gw := some (addr4 10 2 0 6) }] } ∧
      (newRoutes { ips := some [{ address := ⟨addr4 10 2 0 5, 24⟩ }] }
          { ips := some [{ address := ⟨addr4 10 2 0 5, 24⟩, gateway := some (addr4 10 2 0 6),
                           interface := some 2 }],
            routes := some [{ dst := ⟨.v4 0, 0⟩, gw := some (addr4 10 2 0 6) }] }).length ≤ 1 ∧
      (newRoutes { ips := some [{ address := ⟨addr4 10 2 0 5, 24⟩ }] }
          { ips := some [{ address := ⟨addr4 10 2 0 5, 24⟩, gateway := some (addr4 10 2 0 6),
                           interface := some 2 }],
            routes := some [{ dst := ⟨.v4 0, 0⟩, gw := some (addr4 10 2 0 6) }] }).all
        (fun r => r.dst == ⟨.v4 0, 0⟩ && r.gw.isSome) = true ∧
      (scanDefaultRoute ({ ips := some [{ address := ⟨addr4 10 2 0 5, 24⟩ }] } : ExecResult).routes = true →
        ({ ips := some [{ address := ⟨addr4 10 2 0 5, 24⟩, gateway := some (addr4 10 2 0 6),
                          interface := some 2 }],
           routes := some [{ dst := ⟨.v4 0, 0⟩, gw := some (addr4 10 2 0 6) }] } : ExecResult).routes =
          ({ ips := some [{ address := ⟨addr4 10 2 0 5, 24⟩ }] } : ExecResult).routes)) :=
  ⟨rfl, rfl,
    calcGateway_default_route_append { ips := some [{ address := ⟨addr4 10 2 0 5, 24⟩ }] }
      { name := "n3w", isGw := some true, isDefaultGw := some true } _ _ rfl rfl⟩

/-! ### C8: idempotent default-route synthesis -/

/-- A successful `calc_gateway` run that already sees a default route leaves
the routes field unchanged. -/
theorem calcGateway_found_preserves (inp : ExecResult) (conf : NetConf)
    (out : ExecResult) (gws : List GatewayInfo)
    (hfound : scanDefaultRoute inp.routes = true)
    (hok : calcGateway inp conf = .ok (out, gws)) :
    out.routes = inp.routes := by
  revert hok
  unfold calcGateway
  split
  · intro h; cases h
  · rename_i ips hips
    split
    · intro h; cases h
    · intro h; cases h
    · rename_i ips2 routes2 gws2 hloop
      intro h
      cases h
      have := calcGatewayLoop_found_preserves (conf.isGw.getD false)
        (conf.isDefaultGw.getD false) ips inp.routes _ hfound hloop
      simpa using this

/-- C8: running the gateway calculator twice on a delegate output whose
routes already contain an unspecified-destination route carrying a gateway
appends no default route in either run: both runs leave the routes list —
and hence its default-route count — unchanged. -/
theorem calcGateway_twice_no_second_default (inp : ExecResult) (conf : NetConf)
    (out out2 : ExecResult) (gws gws2 : List GatewayInfo)
    (hfound : scanDefaultRoute inp.routes = true)
    (h1 : calcGateway inp conf = .ok (out, gws))
    (h2 : calcGateway out conf = .ok (out2, gws2)) :
    out.routes = inp.routes ∧ out2.routes = out.routes ∧
    defaultRouteCount out2.routes = defaultRouteCount inp.routes := by
  have e1 : out.routes = inp.routes := calcGateway_found_preserves inp conf out gws hfound h1
  have e2 : out2.routes = out.routes :=
    calcGateway_found_preserves out conf out2 gws2 (by rw [e1]; exact hfound) h2
  exact ⟨e1, e2, by rw [e2, e1]⟩

/-- Witness for C8: two successive runs on `c8In`. -/
theorem calcGateway_twice_no_second_default_witness :
    scanDefaultRoute c8In.routes = true ∧
    calcGateway c8In c8Conf = .ok (c8Out, c8Gws) ∧
    calcGateway c8Out c8Conf = .ok (c8Out, c8Gws) ∧
    (c8Out.routes = c8In.routes ∧ c8Out.routes = c8Out.routes ∧
      defaultRouteCount c8Out.routes = defaultRouteCount c8In.routes) :=
  ⟨rfl, rfl, rfl,
    calcGateway_twice_no_second_default c8In c8Conf c8Out c8Out c8Gws c8Gws rfl rfl rfl⟩

/-! ### C4 as amended: the actual ordering of the ADD flow -/

theorem gwEvents_policy (gis : List GatewayInfo) :
    (gwEvents gis).all isPolicyEvent = true := by
  refine List.all_eq_true.mpr ?_
  intro e he
  rw [gwEvents] at he
  rcases List.mem_flatten.mp he with ⟨l, hl, hel⟩
  rcases List.mem_map.mp hl with ⟨gi, _, rfl⟩
  rcases List.mem_append.mp hel with h1 | h2
  · rcases List.mem_map.mp h1 with ⟨g, _, rfl⟩
    rfl
  · split at h2
    · cases h2
    · rw [List.mem_singleton] at h2
      subst h2
      rfl

theorem masqEvents_policy (ips : Option (List Ip)) (chain : String) :
    (masqEvents ips chain).all isPolicyEvent = true := by
  refine List.all_eq_true.mpr ?_
  intro e he
  rw [masqEvents] at he
  rcases List.mem_map.mp he with ⟨ip, _, rfl⟩
  rfl

/-- The shape of every successful `cmd_add` trace: five fixed head events,
then only policy events, then result emission. -/
theorem cmdAddEvents_shape (gw masq : List Event)
    (hgw : gw.all isPolicyEvent = true) (hmasq : masq.all isPolicyEvent = true) :
    (([Event.ensureBridge, Event.setupVeth, Event.delegateAdd, Event.calcGateway,
        Event.configInterface] ++ gw ++ masq ++ [Event.emitResult]).take 5 =
      [Event.ensureBridge, Event.setupVeth, Event.delegateAdd, Event.calcGateway,
        Event.configInterface]) ∧
    (([Event.ensureBridge, Event.setupVeth, Event.delegateAdd, Event.calcGateway,
        Event.configInterface] ++ gw ++ masq ++ [Event.emitResult]).getLast? =
      some Event.emitResult) ∧
    ((([Event.ensureBridge, Event.setupVeth, Event.delegateAdd, Event.calcGateway,
        Event.configInterface] ++ gw ++ masq ++ [Event.emitResult]).drop 5).dropLast.all
      isPolicyEvent = true) := by
  refine ⟨rfl, ?_, ?_⟩
  · have hassoc : [Event.ensureBridge, Event.setupVeth, Event.delegateAdd, Event.calcGateway,
        Event.configInterface] ++ gw ++ masq ++ [Event.emitResult] =
        ([Event.ensureBridge, Event.setupVeth, Event.delegateAdd, Event.calcGateway,
          Event.configInterface] ++ gw ++ masq) ++ [Event.emitResult] := by
      simp [List.append_assoc]
    rw [hassoc, List.getLast?_concat]
  · show ((gw ++ masq ++ [Event.emitResult]).dropLast).all isPolicyEvent = true
    have hassoc : gw ++ masq ++ [Event.emitResult] = (gw ++ masq) ++ [Event.emitResult] := by
      simp [List.append_assoc]
    rw [hassoc, List.dropLast_concat, List.all_append, hgw, hmasq]
    rfl

/-- C4 as amended: in every successful ADD invocation the first five steps
are bridge setup, veth setup, delegate invocation, gateway calculation and
the container-side interface configuration — in that order — so the
container-side configuration runs BEFORE gateway addresses are applied, IP
forwarding is enabled and masquerade rules are installed; everything between
it and the final result emission consists only of those policy steps, and
result emission is last. -/
theorem cmdAdd_config_before_policy (conf : NetConf) (ifaces : List Interface)
    (ipam : ExecResult) (cid : String) (res : ExecResult) (evs : List Event)
    (hok : cmdAdd conf ifaces ipam cid = .ok (res, evs)) :
    evs.take 5 = [Event.ensureBridge, Event.setupVeth, Event.delegateAdd, Event.calcGateway,
      Event.configInterface] ∧
    evs.getLast? = some Event.emitResult ∧
    ((evs.drop 5).dropLast).all isPolicyEvent = true := by
  revert hok
  unfold cmdAdd
  split
  all_goals
    dsimp only
    split
    · intro h; cases h
    · intro h; cases h
    · rename_i bres2 gis hcalc
      intro h
      cases h
      refine cmdAddEvents_shape _ _ ?_ ?_
      · split
        · exact gwEvents_policy gis
        · rfl
      · split
        · exact masqEvents_policy _ _
        · rfl

/-- Witness for C4's amended claim, at the C4 scenario. -/
theorem cmdAdd_config_before_policy_witness :
    cmdAdd c4Conf c4Ifaces c4Delegate "cid4" = .ok (c4Result, c4Events) ∧
    (c4Events.take 5 = [Event.ensureBridge, Event.setupVeth, Event.delegateAdd,
        Event.calcGateway, Event.configInterface] ∧
      c4Events.getLast? = some Event.emitResult ∧
      ((c4Events.drop 5).dropLast).all isPolicyEvent = true) :=
  ⟨rfl, cmdAdd_config_before_policy c4Conf c4Ifaces c4Delegate "cid4" c4Result c4Events rfl⟩

/-! ### C5: `ensure_bridge` idempotence -/

theorem setPromiscOn_links (s : KernelState) (i : String) :
    (setPromiscOn s i).links = s.links := by
  unfold setPromiscOn
  split <;> rfl

theorem sysctlSet_links (s : KernelState) (k v : String) :
    (sysctlSet s k v).links = s.links := rfl

theorem linkSetUp_links (s : KernelState) (i : String) :
    (linkSetUp s i).links = s.links := by
  unfold linkSetUp
  split <;> rfl

theorem setPromiscOn_fault (s : KernelState) (i : String) :
    (setPromiscOn s i).linkAddFault = s.linkAddFault := by
  unfold setPromiscOn
  split <;> rfl

theorem sysctlSet_fault (s : KernelState) (k v : String) :
    (sysctlSet s k v).linkAddFault = s.linkAddFault := rfl

theorem linkSetUp_fault (s : KernelState) (i : String) :
    (linkSetUp s i).linkAddFault = s.linkAddFault := by
  unfold linkSetUp
  split <;> rfl

theorem linkByName_setPromiscOn (s : KernelState) (i n : String) :
    linkByName (setPromiscOn s i) n = linkByName s n := by
  unfold linkByName
  rw [setPromiscOn_links]

theorem linkByName_sysctlSet (s : KernelState) (k v n : String) :
    linkByName (sysctlSet s k v) n = linkByName s n := rfl

theorem linkByName_linkSetUp (s : KernelState) (i n : String) :
    linkByName (linkSetUp s i) n = linkByName s n := by
  unfold linkByName
  rw [linkSetUp_links]

theorem linkByName_append_self (s : KernelState) (brName : String) (l : Link)
    (hfresh : linkByName s brName = none) (hname : l.linkAttrs.name = brName) :
    linkByName { s with links := s.links ++ [l] } brName = some l := by
  unfold linkByName at hfresh ⊢
  rw [List.find?_append, hfresh]
  simp [List.find?, hname]

/-- `ensure_bridge` on a state with no device of that name: the bridge is
created, optionally made promiscuous, the sysctl is written and the device
brought up. -/
theorem ensureBridge_fresh (brName : String) (mtu : Nat) (pm vf : Bool) (s0 : KernelState)
    (hfresh : linkByName s0 brName = none) (hfault : s0.linkAddFault = none) :
    ensureBridge brName mtu pm vf s0 =
      .ok (brOf brName mtu vf,
        linkSetUp (sysctlSet
          (if pm then setPromiscOn { s0 with links := s0.links ++ [brOf brName mtu vf] } brName
           else { s0 with links := s0.links ++ [brOf brName mtu vf] })
          (raKey brName) "1") brName) := by
  have hadd : linkAdd s0 (brOf brName mtu vf) =
      .ok { s0 with links := s0.links ++ [brOf brName mtu vf] } := by
    unfold linkAdd
    rw [hfault]
    have : linkByName s0 (brOf brName mtu vf).linkAttrs.name = none := hfresh
    rw [this]
    rfl
  have hlook : linkByName { s0 with links := s0.links ++ [brOf brName mtu vf] } brName =
      some (brOf brName mtu vf) :=
    linkByName_append_self s0 brName (brOf brName mtu vf) hfresh rfl
  unfold ensureBridge
  dsimp only
  unfold brOf at hadd hlook ⊢
  rw [hadd]
  cases pm with
  | false =>
    dsimp only
    unfold bridgeByName
    rw [if_neg (by simp)]
    dsimp only
    rw [hlook]
    dsimp only
    rfl
  | true =>
    dsimp only
    unfold bridgeByName
    rw [if_pos rfl, hlook]
    dsimp only
    rw [linkByName_setPromiscOn, hlook]
    dsimp only
    rfl

/-- `ensure_bridge` on a state that already holds a bridge of that name: the
"already exists" creation failure is swallowed and the existing device is
re-resolved by name. -/
theorem ensureBridge_existing (brName : String) (mtu : Nat) (pm vf : Bool) (s : KernelState)
    (br : Link) (k : Option Bool)
    (hlook : linkByName s brName = some br)
    (hkind : br.linkKind = .bridge k)
    (hname : br.linkAttrs.name = brName)
    (hfault : s.linkAddFault = none) :
    ensureBridge brName mtu pm vf s =
      .ok (br, linkSetUp (sysctlSet (if pm then setPromiscOn s brName else s)
        (raKey brName) "1") brName) := by
  have hadd : linkAdd s (brOf brName mtu vf) = .error .alreadyExists := by
    unfold linkAdd
    rw [hfault]
    have : linkByName s (brOf brName mtu vf).linkAttrs.name = some br := hlook
    rw [this]
    rfl
  unfold ensureBridge
  dsimp only
  unfold brOf at hadd
  rw [hadd]
  dsimp only [isAlreadyExistsError]
  rw [if_neg (by simp)]
  cases pm with
  | false =>
    dsimp only
    unfold bridgeByName
    rw [if_neg (by simp)]
    dsimp only
    rw [hlook]
    dsimp only
    rw [hkind]
    dsimp only
    simp only [Link.asIndex]
    rw [hname]
    rfl
  | true =>
    dsimp only
    unfold bridgeByName
    rw [if_pos rfl, hlook]
    dsimp only
    simp only [Link.asIndex]
    rw [hname]
    rw [linkByName_setPromiscOn, hlook]
    dsimp only
    rw [hkind]
    dsimp only
    rw [hname]
    rfl

/-- C5: on a state with no device named `brName` and no injected fault,
calling `ensure_bridge` twice with the same name and attributes succeeds both
times and yields the same single bridge device — the second call's creation
failure ("already exists") is swallowed and the existing device re-resolved
by name, the link set is unchanged, and exactly one device of that name
exists; a creation failure other than "already exists" (injected fault) is
fatal. -/
theorem ensureBridge_idempotent_and_fatal (brName : String) (mtu : Nat)
    (pm vf : Bool) (s0 : KernelState) (m : String)
    (hfresh : linkByName s0 brName = none)
    (hfault : s0.linkAddFault = none) :
    (match ensureBridge brName mtu pm vf s0 with
     | .ok (l1, s1) =>
       (match ensureBridge brName mtu pm vf s1 with
        | .ok (l2, s2) => l2 = l1 ∧ s2.links = s1.links ∧
            (s1.links.filter (fun l => l.linkAttrs.name == brName)).length = 1
        | .error _ => False)
     | .error _ => False) ∧
    ensureBridge brName mtu pm vf { s0 with linkAddFault := some m } =
      .error (.linkAddFailed "link add failed") := by
  have hlookAdd : linkByName { s0 with links := s0.links ++ [brOf brName mtu vf] } brName =
      some (brOf brName mtu vf) :=
    linkByName_append_self s0 brName _ hfresh rfl
  constructor
  · rw [ensureBridge_fresh brName mtu pm vf s0 hfresh hfault]
    dsimp only
    have hlook2 : linkByName (linkSetUp (sysctlSet
        (if pm then setPromiscOn { s0 with links := s0.links ++ [brOf brName mtu vf] } brName
         else { s0 with links := s0.links ++ [brOf brName mtu vf] }) (raKey brName) "1")
        brName) brName = some (brOf brName mtu vf) := by
      rw [linkByName_linkSetUp, linkByName_sysctlSet]
      cases pm with
      | true => rw [if_pos rfl, linkByName_setPromiscOn]; exact hlookAdd
      | false => rw [if_neg (by simp)]; exact hlookAdd
    have hfault2 : (linkSetUp (sysctlSet
        (if pm then setPromiscOn { s0 with links := s0.links ++ [brOf brName mtu vf] } brName
         else { s0 with links := s0.links ++ [brOf brName mtu vf] }) (raKey brName) "1")
        brName).linkAddFault = none := by
      rw [linkSetUp_fault, sysctlSet_fault]
      cases pm with
      | true => rw [if_pos rfl, setPromiscOn_fault]; exact hfault
      | false => rw [if_neg (by simp)]; exact hfault
    rw [ensureBridge_existing brName mtu pm vf _ (brOf brName mtu vf) (some vf) hlook2 rfl rfl
      hfault2]
    dsimp only
    refine ⟨rfl, ?_, ?_⟩
    · rw [linkSetUp_links, sysctlSet_links]
      cases pm with
      | true => rw [if_pos rfl, setPromiscOn_links]
      | false => rw [if_neg (by simp)]
    · have hlinks : (linkSetUp (sysctlSet
          (if pm then setPromiscOn { s0 with links := s0.links ++ [brOf brName mtu vf] } brName
           else { s0 with links := s0.links ++ [brOf brName mtu vf] }) (raKey brName) "1")
          brName).links = s0.links ++ [brOf brName mtu vf] := by
        rw [linkSetUp_links, sysctlSet_links]
        cases pm with
        | true => rw [if_pos rfl, setPromiscOn_links]
        | false => rw [if_neg (by simp)]
      rw [hlinks, List.filter_append]
      have h0 : s0.links.filter (fun l => l.linkAttrs.name == brName) = [] := by
        rw [List.filter_eq_nil_iff]
        intro a ha
        have := List.find?_eq_none.mp hfresh a ha
        simpa using this
      rw [h0]
      simp [brOf]
  · rfl

/-- Witness for C5: empty kernel state, bridge `cni0`, MTU 1500, promiscuous
mode on, then an injected `EPERM`-style fault. -/
theorem ensureBridge_idempotent_and_fatal_witness :
    linkByName c5State "cni0" = none ∧
    c5State.linkAddFault = none ∧
    ((match ensureBridge "cni0" 1500 true false c5State with
      | .ok (l1, s1) =>
        (match ensureBridge "cni0" 1500 true false s1 with
         | .ok (l2, s2) => l2 = l1 ∧ s2.links = s1.links ∧
             (s1.links.filter (fun l => l.linkAttrs.name == "cni0")).length = 1
         | .error _ => False)
      | .error _ => False) ∧
     ensureBridge "cni0" 1500 true false { c5State with linkAddFault := some "EPERM" } =
       .error (.linkAddFailed "link add failed")) :=
  ⟨rfl, rfl, ensureBridge_idempotent_and_fatal "cni0" 1500 true false c5State "EPERM" rfl rfl⟩

end CniNg

